import Mathlib

/-!
Verification development for the hammer-vlsi Cadence Innovus place-and-route
plugin (src/src/hammer-vlsi/par/innovus/__init__.py).

The plugin is embedded shallowly: each method of the `Innovus` class becomes a
pure Lean function. Filesystem writes, `run_executable` invocations, and logged
errors become explicit components of the returned values, listed in the order
the Python code performs them. Framework collaborators that are not part of
this repository file (the Command Emitter `verbose_tcl_append` and the input
check `check_input_files`) are modelled from the specification, as marked in
their doc comments; everything else is translated line by line from the source.
-/

namespace Innovus

/-- Models Python `str.split` with separator `"\n"` on the character list:
keeps empty segments, and splitting the empty string yields `[""]`, exactly as
in Python. Auxiliary worker carrying the reversed current segment. -/
def splitLinesAux : List Char → List Char → List String
  | [], acc => [String.mk acc.reverse]
  | c :: cs, acc =>
    if c = '\n' then String.mk acc.reverse :: splitLinesAux cs []
    else splitLinesAux cs (c :: acc)

/-- Models Python `s.split("\n")`. -/
def splitLines (s : String) : List String := splitLinesAux s.data []

/-- Models `os.path.join dir name` for the uses in this plugin, where the
second component is always a relative literal such as `"mmmc.tcl"`. -/
def pathJoin (dir name : String) : String := dir ++ "/" ++ name

/-- Configuration and collaborator inputs consumed by the plugin during one
run. Fields correspond to the settings keys and base-class accessors the
source reads: `run_dir`, `os.getcwd()` (`cwd`), the LEF files returned by
`read_libs` (`lef_files`), the string returned by `get_liberty_libs`
(`liberty_libs`), `input_files`, `top_module`, `post_synth_sdc`, the settings
`par.innovus.floorplan_mode`, `par.innovus.floorplan_script_contents` and
`par.innovus.innovus_bin`. `die_size` models the configured die-size/margin
parameters of the design (spec section 6, consumed when the floorplan mode is
"generate"); the source never reads such a setting. -/
structure Config where
  run_dir : String
  cwd : String
  lef_files : List String
  liberty_libs : String
  input_files : List String
  top_module : String
  post_synth_sdc : String
  floorplan_mode : String
  floorplan_script_contents : String
  innovus_bin : String
  die_size : String
deriving DecidableEq

/-- Modelled from the spec: `verbose_tcl_append` (the Command Emitter, spec
section 4.1) is a framework collaborator not under src/. Per the spec it
"appends `command` to the sequence and, if verbose diagnostics are enabled,
surfaces it to the collaborator logging facility"; the diagnostic echo is a
logging side effect and not part of the accumulated script, so the model
appends the command string to the buffer. -/
def verbose_tcl_append (cmd : String) (output : List String) : List String :=
  output ++ [cmd]

/-- Modelled from the spec: `check_input_files` (framework collaborator, not
under src/). Spec section 4.4 step 3: "require the design's input files to
include at least one structural-netlist file; fail the run ... if none is
present". Returns true iff some input file carries one of the given
extensions; "carries the extension" is expressed as a suffix test on the
character list of the file name. -/
def check_input_files (cfg : Config) (extensions : List String) : Bool :=
  cfg.input_files.any fun f => extensions.any fun e => e.data.isSuffixOf f.data

/-- Embeds `generate_mmmc_script` (source lines 160-227). The first component
is the list of commands accumulated in `mmmc_output` via `append_mmmc` (the
returned script is their newline join, see `generate_mmmc_script`); the second
component records the `run_executable` invocations made while building it
(the `touch` of `blank.sdc` when no post-synthesis SDC is supplied). -/
def generate_mmmc_lines (cfg : Config) : List String × List (List String) :=
  let library_set_name := "my_lib_set"
  let mmmc_output := verbose_tcl_append
    ("create_library_set -name " ++ library_set_name ++ " -timing [list " ++
      cfg.liberty_libs ++ "]") []
  let timing_condition_name := "my_timing_condition"
  let mmmc_output := verbose_tcl_append
    ("create_timing_condition -name " ++ timing_condition_name ++
      " -library_sets [list " ++ library_set_name ++ "]") mmmc_output
  let delay_corner_name := "my_delay_corner"
  let mmmc_output := verbose_tcl_append
    ("create_delay_corner -name " ++ delay_corner_name ++
      " -timing_condition " ++ timing_condition_name) mmmc_output
  let constraint_mode := "my_constraint_mode"
  let sdc_files : List String :=
    if cfg.post_synth_sdc ≠ "" then [cfg.post_synth_sdc] else []
  let touches : List (List String) :=
    if sdc_files.length > 0 then []
    else [["touch", pathJoin cfg.run_dir "blank.sdc"]]
  let sdc_files_arg :=
    if sdc_files.length > 0 then
      "-sdc_files [list " ++ String.intercalate " " sdc_files ++ "]"
    else
      "-sdc_files \x7b " ++ pathJoin cfg.run_dir "blank.sdc" ++ " \x7d"
  let mmmc_output := verbose_tcl_append
    ("create_constraint_mode -name " ++ constraint_mode ++ " " ++ sdc_files_arg)
    mmmc_output
  let analysis_view_name := "my_view"
  let mmmc_output := verbose_tcl_append
    ("create_analysis_view -name " ++ analysis_view_name ++ " -delay_corner " ++
      delay_corner_name ++ " -constraint_mode " ++ constraint_mode) mmmc_output
  let mmmc_output := verbose_tcl_append
    ("set_analysis_view -setup \x7b " ++ analysis_view_name ++
      " \x7d -hold \x7b " ++ analysis_view_name ++ " \x7d") mmmc_output
  (mmmc_output, touches)

/-- Embeds the return value of `generate_mmmc_script`: the newline join of the
accumulated commands. -/
def generate_mmmc_script (cfg : Config) : String :=
  String.intercalate "\n" (generate_mmmc_lines cfg).1

/-- Embeds `generate_floorplan_tcl` (source lines 229-243): a provenance
comment and one hard-coded `create_floorplan` command (the source marks
floorplan generation as an unimplemented TODO and reads no die-size
configuration). -/
def generate_floorplan_tcl (_cfg : Config) : List String :=
  ["# Floorplan automatically generated from HAMMER",
   "create_floorplan -core_margins_by die -die_size_by_io_height max -die_size \x7b1100.0 400.0 100 100 100 100\x7d"]

/-- Embeds `create_floorplan_tcl` (source lines 139-158). The first component
is the returned command list; the second records the messages passed to
`self.logger.error`. -/
def create_floorplan_tcl (cfg : Config) : List String × List String :=
  if cfg.floorplan_mode = "manual" then
    ("# Floorplan manually specified from HAMMER" ::
      splitLines cfg.floorplan_script_contents, [])
  else if cfg.floorplan_mode = "generate" then
    (generate_floorplan_tcl cfg, [])
  else if cfg.floorplan_mode ≠ "blank" then
    (["# Blank floorplan specified from HAMMER"],
     ["Invalid floorplan_mode " ++ cfg.floorplan_mode ++ ". Using blank floorplan."])
  else
    (["# Blank floorplan specified from HAMMER"], [])

/-- Embeds the derivation of `output_innovus_lib_name` (source line 82):
`"\x7btop\x7d_ENC".format(top=self.top_module)`. -/
def output_innovus_lib_name (top : String) : String := top ++ "_ENC"

/-- Result of one `do_run` invocation: the returned boolean, the files written
by `open(...).write` in this method (path and contents, in write order; the
`enter` script written inside the base-class collaborator `create_enter_script`
is not tracked), the `run_executable` invocations in order, and the final
contents of the `output` command buffer. -/
structure DoRunResult where
  success : Bool
  files_written : List (String × String)
  run_executable_calls : List (List String)
  script : List String
deriving DecidableEq

/-- Embeds `do_run` (source lines 26-137), excluding the logging-flag toggles
around the final launch, which are embedded separately as `launchSection`
because they mutate process-wide collaborator state. Commands are accumulated
through `verbose_tcl_append` exactly in source order; the branch on
`check_input_files` returns early with `success := false`. -/
def do_run (cfg : Config) : DoRunResult :=
  let output : List String := []
  let lef_files := cfg.lef_files
  let output := verbose_tcl_append
    ("read_physical -lef \x7b " ++ String.intercalate " " lef_files ++ " \x7d")
    output
  let mmmc_path := pathJoin cfg.run_dir "mmmc.tcl"
  let files : List (String × String) := [(mmmc_path, generate_mmmc_script cfg)]
  let execs : List (List String) := (generate_mmmc_lines cfg).2
  let output := verbose_tcl_append ("read_mmmc " ++ mmmc_path) output
  if ¬ check_input_files cfg [".v"] then
    { success := false, files_written := files,
      run_executable_calls := execs, script := output }
  else
    let abspath_input_files := cfg.input_files.map fun name => pathJoin cfg.cwd name
    let output := verbose_tcl_append
      ("read_netlist \x7b " ++ String.intercalate " " abspath_input_files ++
        " \x7d -top " ++ cfg.top_module) output
    let output := verbose_tcl_append "init_design" output
    let output := verbose_tcl_append "set_db design_flow_effort express" output
    let floorplan_tcl := pathJoin cfg.run_dir "floorplan.tcl"
    let files := files ++
      [(floorplan_tcl, String.intercalate "\n" (create_floorplan_tcl cfg).1)]
    let output := verbose_tcl_append ("source -echo -verbose " ++ floorplan_tcl) output
    let output := verbose_tcl_append "place_opt_design" output
    let output := verbose_tcl_append "route_design" output
    let output := verbose_tcl_append "opt_design -post_route -setup -hold" output
    let lib_name := output_innovus_lib_name cfg.top_module
    let output := verbose_tcl_append ("write_db " ++ lib_name ++ " -def -verilog") output
    let output := verbose_tcl_append
      "write_stream -output_macros -mode ALL -unit 1000 gds_file" output
    let output := verbose_tcl_append "exit" output
    let par_tcl_filename := pathJoin cfg.run_dir "par.tcl"
    let files := files ++ [(par_tcl_filename, String.intercalate "\n" output)]
    let generated_scripts_dir := pathJoin cfg.run_dir "generated-scripts"
    let files := files ++
      [(pathJoin generated_scripts_dir "open_chip.tcl",
        "\nread_db " ++ lib_name ++ "\n        ")]
    let files := files ++
      [(pathJoin generated_scripts_dir "open_chip",
        "\ncd " ++ cfg.run_dir ++
          "\nsource enter\n$INNOVUS_BIN -common_ui -files generated-scripts/open_chip.tcl\n        ")]
    let execs := execs ++ [["chmod", "+x", pathJoin generated_scripts_dir "open_chip"]]
    let args := [cfg.innovus_bin, "-nowin", "-common_ui", "-files", par_tcl_filename]
    let execs := execs ++ [args]
    { success := true, files_written := files,
      run_executable_calls := execs, script := output }

/-- The process-wide logging-decoration flags of the `HammerVLSILogging`
collaborator. -/
structure LogFlags where
  enable_colour : Bool
  enable_tag : Bool
deriving DecidableEq

/-- Embeds source lines 127-133 of `do_run`: disable both logging flags, call
`run_executable`, re-enable both flags. The call is straight-line Python with
no try/finally, so an exception from `run_executable` propagates immediately;
`raisesEx` says whether the call raises, and on `.error` the result carries
the flag state at the moment the exception escapes. -/
def launchSection (raisesEx : Bool) (flags : LogFlags) : Except LogFlags LogFlags :=
  let flags := { flags with enable_colour := false }
  let flags := { flags with enable_tag := false }
  if raisesEx then .error flags
  else
    let flags := { flags with enable_colour := true }
    let flags := { flags with enable_tag := true }
    .ok flags

/-- Decides whether `line` is a command of the given directive: the directive
word list is a prefix of the characters of the line. -/
def isCmd (directive line : String) : Bool :=
  directive.data.isPrefixOf line.data

/-- Sample configuration used by concrete witnesses. -/
def sampleConfig : Config :=
  { run_dir := "/rundir", cwd := "/cwd", lef_files := ["a.lef"],
    liberty_libs := "lib1.lib lib2.lib", input_files := ["top.v"],
    top_module := "core", post_synth_sdc := "",
    floorplan_mode := "blank", floorplan_script_contents := "",
    innovus_bin := "/tools/innovus", die_size := "100 100" }

/-- The accumulated mmmc commands when a post-synthesis SDC is supplied: the
constraint mode references that file and no `touch` runs. -/
lemma generate_mmmc_lines_of_sdc (cfg : Config) (h : cfg.post_synth_sdc ≠ "") :
    generate_mmmc_lines cfg =
      (["create_library_set -name my_lib_set -timing [list " ++ cfg.liberty_libs ++ "]",
        "create_timing_condition -name my_timing_condition -library_sets [list my_lib_set]",
        "create_delay_corner -name my_delay_corner -timing_condition my_timing_condition",
        "create_constraint_mode -name my_constraint_mode -sdc_files [list " ++
          cfg.post_synth_sdc ++ "]",
        "create_analysis_view -name my_view -delay_corner my_delay_corner -constraint_mode my_constraint_mode",
        "set_analysis_view -setup \x7b my_view \x7d -hold \x7b my_view \x7d"], []) := by
  simp only [generate_mmmc_lines, verbose_tcl_append, ne_eq, h, not_false_eq_true,
    if_true, List.length_cons]
  rfl

/-- The accumulated mmmc commands when no post-synthesis SDC is supplied: a
blank SDC in the run directory is touched and referenced. -/
lemma generate_mmmc_lines_of_no_sdc (cfg : Config) (h : cfg.post_synth_sdc = "") :
    generate_mmmc_lines cfg =
      (["create_library_set -name my_lib_set -timing [list " ++ cfg.liberty_libs ++ "]",
        "create_timing_condition -name my_timing_condition -library_sets [list my_lib_set]",
        "create_delay_corner -name my_delay_corner -timing_condition my_timing_condition",
        "create_constraint_mode -name my_constraint_mode -sdc_files \x7b " ++
          pathJoin cfg.run_dir "blank.sdc" ++ " \x7d",
        "create_analysis_view -name my_view -delay_corner my_delay_corner -constraint_mode my_constraint_mode",
        "set_analysis_view -setup \x7b my_view \x7d -hold \x7b my_view \x7d"],
       [["touch", pathJoin cfg.run_dir "blank.sdc"]]) := by
  simp only [generate_mmmc_lines, verbose_tcl_append, ne_eq, h, not_true_eq_false,
    if_false, List.length_nil]
  rfl

/-- C3: for every configuration (hence for any non-empty sequence of library
paths feeding `liberty_libs` and for any constraint-file input), the mmmc
command list contains exactly one library-set, one timing-condition, one
delay-corner, one constraint-mode, and one analysis-view declaration, in that
order, followed by the directive applying the single view `my_view` as both
the setup and the hold analysis view. -/
theorem C3_mmmc_single_corner_topology (cfg : Config) :
    (∃ sdc_files_arg : String,
      (generate_mmmc_lines cfg).1 =
        ["create_library_set -name my_lib_set -timing [list " ++ cfg.liberty_libs ++ "]",
         "create_timing_condition -name my_timing_condition -library_sets [list my_lib_set]",
         "create_delay_corner -name my_delay_corner -timing_condition my_timing_condition",
         "create_constraint_mode -name my_constraint_mode " ++ sdc_files_arg,
         "create_analysis_view -name my_view -delay_corner my_delay_corner -constraint_mode my_constraint_mode",
         "set_analysis_view -setup \x7b my_view \x7d -hold \x7b my_view \x7d"]) ∧
    (generate_mmmc_lines cfg).1.countP (fun l => isCmd "create_library_set" l) = 1 ∧
    (generate_mmmc_lines cfg).1.countP (fun l => isCmd "create_timing_condition" l) = 1 ∧
    (generate_mmmc_lines cfg).1.countP (fun l => isCmd "create_delay_corner" l) = 1 ∧
    (generate_mmmc_lines cfg).1.countP (fun l => isCmd "create_constraint_mode" l) = 1 ∧
    (generate_mmmc_lines cfg).1.countP (fun l => isCmd "create_analysis_view" l) = 1 := by
  by_cases h : cfg.post_synth_sdc = ""
  · rw [generate_mmmc_lines_of_no_sdc cfg h]
    exact ⟨⟨"-sdc_files \x7b " ++ pathJoin cfg.run_dir "blank.sdc" ++ " \x7d", rfl⟩,
      rfl, rfl, rfl, rfl, rfl⟩
  · rw [generate_mmmc_lines_of_sdc cfg h]
    exact ⟨⟨"-sdc_files [list " ++ cfg.post_synth_sdc ++ "]", rfl⟩,
      rfl, rfl, rfl, rfl, rfl⟩

/-- C4: when the post-synthesis constraint-file path is empty, a blank
constraint file in the run directory is created (via the recorded
`run_executable` call to `touch`) and the constraint-mode declaration
references it; when the path is non-empty, the declaration references that
path and no blank file is created. Either way the declaration names one
constraint file, never zero. -/
theorem C4_constraint_mode_never_empty (cfg : Config) :
    (cfg.post_synth_sdc = "" →
      (generate_mmmc_lines cfg).2 = [["touch", pathJoin cfg.run_dir "blank.sdc"]] ∧
      (generate_mmmc_lines cfg).1[3]? =
        some ("create_constraint_mode -name my_constraint_mode -sdc_files \x7b " ++
          pathJoin cfg.run_dir "blank.sdc" ++ " \x7d")) ∧
    (cfg.post_synth_sdc ≠ "" →
      (generate_mmmc_lines cfg).2 = [] ∧
      (generate_mmmc_lines cfg).1[3]? =
        some ("create_constraint_mode -name my_constraint_mode -sdc_files [list " ++
          cfg.post_synth_sdc ++ "]")) := by
  constructor
  · intro h
    rw [generate_mmmc_lines_of_no_sdc cfg h]
    exact ⟨rfl, rfl⟩
  · intro h
    rw [generate_mmmc_lines_of_sdc cfg h]
    exact ⟨rfl, rfl⟩

/-- Witness for C4: with the sample configuration (no SDC supplied) the blank
SDC is touched; with a supplied SDC nothing is touched. -/
theorem C4_constraint_mode_never_empty_witness :
    (generate_mmmc_lines sampleConfig).2 = [["touch", "/rundir/blank.sdc"]] ∧
    (generate_mmmc_lines { sampleConfig with post_synth_sdc := "post.sdc" }).2 = [] := by
  refine ⟨?_, ?_⟩
  · have h := (C4_constraint_mode_never_empty sampleConfig).1 rfl
    simpa using h.1
  · have h := (C4_constraint_mode_never_empty
      { sampleConfig with post_synth_sdc := "post.sdc" }).2 (by decide)
    simpa using h.1

/-- C5: for every floorplan-mode value that is neither "manual" nor
"generate", `create_floorplan_tcl` returns exactly the blank-floorplan
command list; when the value is additionally not the literal "blank", one
error naming the invalid mode is logged, and for "blank" itself nothing is
logged. The function is total, so no exception reaches the caller. -/
theorem C5_invalid_mode_degrades_to_blank (cfg : Config)
    (h1 : cfg.floorplan_mode ≠ "manual") (h2 : cfg.floorplan_mode ≠ "generate") :
    (create_floorplan_tcl cfg).1 = ["# Blank floorplan specified from HAMMER"] ∧
    (cfg.floorplan_mode ≠ "blank" →
      (create_floorplan_tcl cfg).2 =
        ["Invalid floorplan_mode " ++ cfg.floorplan_mode ++ ". Using blank floorplan."]) ∧
    (cfg.floorplan_mode = "blank" → (create_floorplan_tcl cfg).2 = []) := by
  unfold create_floorplan_tcl
  rw [if_neg h1, if_neg h2]
  by_cases hb : cfg.floorplan_mode = "blank"
  · rw [if_neg (by simp [hb])]
    exact ⟨rfl, fun hc => absurd hb hc, fun _ => rfl⟩
  · rw [if_pos hb]
    exact ⟨rfl, fun _ => rfl, fun hc => absurd hc hb⟩

/-- Witness for C5 at the concrete invalid mode "bogus". -/
theorem C5_invalid_mode_degrades_to_blank_witness :
    (create_floorplan_tcl { sampleConfig with floorplan_mode := "bogus" }).1 =
      ["# Blank floorplan specified from HAMMER"] ∧
    (create_floorplan_tcl { sampleConfig with floorplan_mode := "bogus" }).2 =
      ["Invalid floorplan_mode bogus. Using blank floorplan."] := by
  have h := C5_invalid_mode_degrades_to_blank
    { sampleConfig with floorplan_mode := "bogus" } (by decide) (by decide)
  exact ⟨h.1, by simpa using h.2.1 (by decide)⟩

/-- C8: for floorplan mode "manual" the returned commands are the provenance
comment followed by the caller-supplied script text split into lines verbatim;
in particular for the text "A\nB" the result is exactly
["# Floorplan manually specified from HAMMER", "A", "B"]. -/
theorem C8_manual_mode_verbatim (cfg : Config) (h : cfg.floorplan_mode = "manual") :
    (create_floorplan_tcl cfg).1 =
      "# Floorplan manually specified from HAMMER" ::
        splitLines cfg.floorplan_script_contents ∧
    (cfg.floorplan_script_contents = "A\nB" →
      (create_floorplan_tcl cfg).1 =
        ["# Floorplan manually specified from HAMMER", "A", "B"]) := by
  constructor
  · simp [create_floorplan_tcl, h]
  · intro hc
    simp only [create_floorplan_tcl, h, if_pos, hc]
    decide

/-- Witness for C8 at floorplan mode "manual" with script text "A\nB". -/
theorem C8_manual_mode_verbatim_witness :
    (create_floorplan_tcl
      { sampleConfig with floorplan_mode := "manual",
                          floorplan_script_contents := "A\nB" }).1 =
      ["# Floorplan manually specified from HAMMER", "A", "B"] :=
  (C8_manual_mode_verbatim
    { sampleConfig with floorplan_mode := "manual",
                        floorplan_script_contents := "A\nB" } rfl).2 rfl

/-- C6 (code bug): the source hard-codes the generated floorplan command with
fixed die-size and margin values and never consults the configured die-size
parameters, contradicting both the claim and the function docstring
("based on the input config/IR"; the body says "TODO: implement floorplan
generation"). Two generate-mode configurations whose configured die-size
parameters differ produce the identical hard-coded command list. -/
theorem C6_generate_mode_ignores_die_size_config :
    (create_floorplan_tcl
        { sampleConfig with floorplan_mode := "generate", die_size := "1100.0 400.0 100 100 100 100" }).1 =
      (create_floorplan_tcl
        { sampleConfig with floorplan_mode := "generate", die_size := "999.0 999.0 1 1 1 1" }).1 ∧
    ({ sampleConfig with floorplan_mode := "generate", die_size := "1100.0 400.0 100 100 100 100" } : Config).die_size ≠
      ({ sampleConfig with floorplan_mode := "generate", die_size := "999.0 999.0 1 1 1 1" } : Config).die_size ∧
    (create_floorplan_tcl
        { sampleConfig with floorplan_mode := "generate", die_size := "999.0 999.0 1 1 1 1" }).1 =
      ["# Floorplan automatically generated from HAMMER",
       "create_floorplan -core_margins_by die -die_size_by_io_height max -die_size \x7b1100.0 400.0 100 100 100 100\x7d"] := by
  refine ⟨rfl, by decide, rfl⟩

/-- C7 counterexample: when the subprocess invocation raises, the exception
propagates with both logging flags still disabled — they are not restored on
that exit path, refuting the claim that every exit path restores them. -/
theorem C7_counterexample_raise_leaves_flags_disabled :
    launchSection true { enable_colour := true, enable_tag := true } =
      Except.error { enable_colour := false, enable_tag := false } ∧
    ({ enable_colour := false, enable_tag := false } : LogFlags) ≠
      { enable_colour := true, enable_tag := true } := by
  exact ⟨rfl, by decide⟩

/-- C7 (amended): the logging flags are restored to enabled only on the
normal-return path of the subprocess invocation; if the invocation raises, the
exception propagates with both flags left disabled, whatever their prior
state. -/
theorem C7_flags_restored_only_on_normal_return (flags : LogFlags) :
    launchSection false flags = Except.ok { enable_colour := true, enable_tag := true } ∧
    launchSection true flags = Except.error { enable_colour := false, enable_tag := false } :=
  ⟨rfl, rfl⟩

/-- The result of `do_run` when the netlist check fails: failure is returned
with only the first two commands accumulated, only `mmmc.tcl` written, and
only the `run_executable` calls made while generating the mmmc script. -/
lemma do_run_of_no_netlist (cfg : Config)
    (h : check_input_files cfg [".v"] = false) :
    do_run cfg =
      { success := false,
        files_written := [(pathJoin cfg.run_dir "mmmc.tcl", generate_mmmc_script cfg)],
        run_executable_calls := (generate_mmmc_lines cfg).2,
        script :=
          ["read_physical -lef \x7b " ++ String.intercalate " " cfg.lef_files ++ " \x7d",
           "read_mmmc " ++ pathJoin cfg.run_dir "mmmc.tcl"] } := by
  simp only [do_run, verbose_tcl_append, h, Bool.false_eq_true, not_false_eq_true, if_true,
    List.nil_append, List.append_assoc, List.singleton_append]

/-- The result of `do_run` when the netlist check passes: the twelve commands
in source order, the five files written, and the `run_executable` calls (the
mmmc `touch` if any, the `chmod`, and the Innovus launch). -/
lemma do_run_of_netlist (cfg : Config)
    (h : check_input_files cfg [".v"] = true) :
    do_run cfg =
      { success := true,
        files_written :=
          [(pathJoin cfg.run_dir "mmmc.tcl", generate_mmmc_script cfg),
           (pathJoin cfg.run_dir "floorplan.tcl",
            String.intercalate "\n" (create_floorplan_tcl cfg).1),
           (pathJoin cfg.run_dir "par.tcl",
            String.intercalate "\n"
              ["read_physical -lef \x7b " ++ String.intercalate " " cfg.lef_files ++ " \x7d",
               "read_mmmc " ++ pathJoin cfg.run_dir "mmmc.tcl",
               "read_netlist \x7b " ++
                   String.intercalate " " (cfg.input_files.map fun name => pathJoin cfg.cwd name) ++
                 " \x7d -top " ++ cfg.top_module,
               "init_design",
               "set_db design_flow_effort express",
               "source -echo -verbose " ++ pathJoin cfg.run_dir "floorplan.tcl",
               "place_opt_design",
               "route_design",
               "opt_design -post_route -setup -hold",
               "write_db " ++ output_innovus_lib_name cfg.top_module ++ " -def -verilog",
               "write_stream -output_macros -mode ALL -unit 1000 gds_file",
               "exit"]),
           (pathJoin (pathJoin cfg.run_dir "generated-scripts") "open_chip.tcl",
            "\nread_db " ++ output_innovus_lib_name cfg.top_module ++ "\n        "),
           (pathJoin (pathJoin cfg.run_dir "generated-scripts") "open_chip",
            "\ncd " ++ cfg.run_dir ++
              "\nsource enter\n$INNOVUS_BIN -common_ui -files generated-scripts/open_chip.tcl\n        ")],
        run_executable_calls :=
          (generate_mmmc_lines cfg).2 ++
            [["chmod", "+x", pathJoin (pathJoin cfg.run_dir "generated-scripts") "open_chip"],
             [cfg.innovus_bin, "-nowin", "-common_ui", "-files", pathJoin cfg.run_dir "par.tcl"]],
        script :=
          ["read_physical -lef \x7b " ++ String.intercalate " " cfg.lef_files ++ " \x7d",
           "read_mmmc " ++ pathJoin cfg.run_dir "mmmc.tcl",
           "read_netlist \x7b " ++
               String.intercalate " " (cfg.input_files.map fun name => pathJoin cfg.cwd name) ++
             " \x7d -top " ++ cfg.top_module,
           "init_design",
           "set_db design_flow_effort express",
           "source -echo -verbose " ++ pathJoin cfg.run_dir "floorplan.tcl",
           "place_opt_design",
           "route_design",
           "opt_design -post_route -setup -hold",
           "write_db " ++ output_innovus_lib_name cfg.top_module ++ " -def -verilog",
           "write_stream -output_macros -mode ALL -unit 1000 gds_file",
           "exit"] } := by
  simp only [do_run, verbose_tcl_append, h, not_true_eq_false, Bool.true_eq_false, if_false,
    List.nil_append, List.append_assoc, List.singleton_append, List.cons_append]

/-- The hypothesis that no input file carries the structural-netlist `.v`
extension makes the modelled netlist check fail. -/
lemma check_input_files_eq_false (cfg : Config)
    (h : ∀ f ∈ cfg.input_files, ".v".data.isSuffixOf f.data = false) :
    check_input_files cfg [".v"] = false := by
  simp only [check_input_files]
  rw [List.any_eq_false]
  intro f hf
  simp only [List.any_cons, List.any_nil, Bool.or_false]
  simp [h f hf]

/-- C1: whenever `do_run` proceeds past the netlist check, the accumulated run
script is exactly twelve commands in the fixed order read-layout
(`read_physical`), read-timing (`read_mmmc`), read-netlist, `init_design`,
effort setting, floorplan source, `place_opt_design`, `route_design`,
post-route `opt_design`, `write_db`, `write_stream`, `exit`; the
configuration only changes the content of individual lines, never the order
or the set of steps. -/
theorem C1_run_script_order (cfg : Config)
    (h : check_input_files cfg [".v"] = true) :
    (do_run cfg).script =
      ["read_physical -lef \x7b " ++ String.intercalate " " cfg.lef_files ++ " \x7d",
       "read_mmmc " ++ pathJoin cfg.run_dir "mmmc.tcl",
       "read_netlist \x7b " ++
           String.intercalate " " (cfg.input_files.map fun name => pathJoin cfg.cwd name) ++
         " \x7d -top " ++ cfg.top_module,
       "init_design",
       "set_db design_flow_effort express",
       "source -echo -verbose " ++ pathJoin cfg.run_dir "floorplan.tcl",
       "place_opt_design",
       "route_design",
       "opt_design -post_route -setup -hold",
       "write_db " ++ output_innovus_lib_name cfg.top_module ++ " -def -verilog",
       "write_stream -output_macros -mode ALL -unit 1000 gds_file",
       "exit"] := by
  rw [do_run_of_netlist cfg h]

/-- Witness for C1 at the sample configuration. -/
theorem C1_run_script_order_witness :
    check_input_files sampleConfig [".v"] = true ∧
    (do_run sampleConfig).script =
      ["read_physical -lef \x7b a.lef \x7d",
       "read_mmmc /rundir/mmmc.tcl",
       "read_netlist \x7b /cwd/top.v \x7d -top core",
       "init_design",
       "set_db design_flow_effort express",
       "source -echo -verbose /rundir/floorplan.tcl",
       "place_opt_design",
       "route_design",
       "opt_design -post_route -setup -hold",
       "write_db core_ENC -def -verilog",
       "write_stream -output_macros -mode ALL -unit 1000 gds_file",
       "exit"] :=
  ⟨rfl, C1_run_script_order sampleConfig rfl⟩

/-- C2: when no input file carries the `.v` extension, `do_run` returns
failure with only the two read commands accumulated (no netlist read,
floorplan, placement, routing, database write, or stream-out command), only
`mmmc.tcl` written (in particular no `par.tcl`), and no `run_executable` call
beyond those of the mmmc generator (in particular no subprocess launch). -/
theorem C2_missing_netlist_fails (cfg : Config)
    (h : ∀ f ∈ cfg.input_files, ".v".data.isSuffixOf f.data = false) :
    (do_run cfg).success = false ∧
    (do_run cfg).files_written =
      [(pathJoin cfg.run_dir "mmmc.tcl", generate_mmmc_script cfg)] ∧
    (do_run cfg).script =
      ["read_physical -lef \x7b " ++ String.intercalate " " cfg.lef_files ++ " \x7d",
       "read_mmmc " ++ pathJoin cfg.run_dir "mmmc.tcl"] ∧
    (do_run cfg).run_executable_calls = (generate_mmmc_lines cfg).2 := by
  rw [do_run_of_no_netlist cfg (check_input_files_eq_false cfg h)]
  exact ⟨rfl, rfl, rfl, rfl⟩

/-- Witness for C2 at a configuration whose only input file is a VHDL file. -/
theorem C2_missing_netlist_fails_witness :
    (do_run { sampleConfig with input_files := ["design.vhd"] }).success = false ∧
    (do_run { sampleConfig with input_files := ["design.vhd"] }).files_written =
      [("/rundir/mmmc.tcl",
        generate_mmmc_script { sampleConfig with input_files := ["design.vhd"] })] := by
  have h := C2_missing_netlist_fails
    { sampleConfig with input_files := ["design.vhd"] } (by decide)
  exact ⟨h.1, h.2.1⟩

/-- C9: for every top-level module name the database name is the module name
with "_ENC" appended (for "core" it is "core_ENC"), and that same name
appears both in the `write_db` command of the run script and in the generated
`open_chip.tcl` reopen script. -/
theorem C9_database_name (cfg : Config)
    (h : check_input_files cfg [".v"] = true) :
    output_innovus_lib_name cfg.top_module = cfg.top_module ++ "_ENC" ∧
    output_innovus_lib_name "core" = "core_ENC" ∧
    (do_run cfg).script[9]? =
      some ("write_db " ++ output_innovus_lib_name cfg.top_module ++ " -def -verilog") ∧
    (pathJoin (pathJoin cfg.run_dir "generated-scripts") "open_chip.tcl",
      "\nread_db " ++ output_innovus_lib_name cfg.top_module ++ "\n        ") ∈
      (do_run cfg).files_written := by
  rw [do_run_of_netlist cfg h]
  refine ⟨rfl, rfl, rfl, ?_⟩
  exact List.mem_cons_of_mem _ (List.mem_cons_of_mem _ (List.mem_cons_of_mem _
    (List.mem_cons_self _ _)))

/-- Witness for C9 at the sample configuration with top module "core". -/
theorem C9_database_name_witness :
    (do_run sampleConfig).script[9]? = some "write_db core_ENC -def -verilog" ∧
    ("/rundir/generated-scripts/open_chip.tcl", "\nread_db core_ENC\n        ") ∈
      (do_run sampleConfig).files_written :=
  ⟨(C9_database_name sampleConfig rfl).2.2.1, (C9_database_name sampleConfig rfl).2.2.2⟩

/-- C10: a run that fails the netlist check is not atomic with respect to
filesystem artifacts: `mmmc.tcl` (with the full generated timing script) has
already been written when failure is returned, while it is the only file
written — `par.tcl`, `floorplan.tcl` and the reopen scripts never are. -/
theorem C10_failed_run_leaves_mmmc (cfg : Config)
    (h : ∀ f ∈ cfg.input_files, ".v".data.isSuffixOf f.data = false) :
    (do_run cfg).success = false ∧
    (pathJoin cfg.run_dir "mmmc.tcl", generate_mmmc_script cfg) ∈
      (do_run cfg).files_written ∧
    (do_run cfg).files_written.map Prod.fst = [pathJoin cfg.run_dir "mmmc.tcl"] := by
  rw [do_run_of_no_netlist cfg (check_input_files_eq_false cfg h)]
  exact ⟨rfl, List.mem_cons_self _ _, rfl⟩

/-- Witness for C10 at a configuration whose only input file is a VHDL file. -/
theorem C10_failed_run_leaves_mmmc_witness :
    (do_run { sampleConfig with input_files := ["design.vhd"] }).success = false ∧
    (do_run { sampleConfig with input_files := ["design.vhd"] }).files_written.map
        Prod.fst = ["/rundir/mmmc.tcl"] := by
  have h := C10_failed_run_leaves_mmmc
    { sampleConfig with input_files := ["design.vhd"] } (by decide)
  exact ⟨h.1, h.2.2⟩

end Innovus
